import Mathlib

/-!
Shallow embedding of `src/pprogramistbot/database/models.py`.

The module declares six SQLAlchemy entity tables sharing a common abstract
base (`BaseModel`): an autoincrement integer primary key `id`, and two
TIMESTAMP columns `created_at` and `updated_at`.  Both timestamp columns use
`server_default=str(datetime.datetime.now())`: the Python expression
`datetime.datetime.now()` is evaluated ONCE, when the module is imported, and
the resulting string is baked into the schema as a constant server default.
We therefore model timestamps as natural numbers and thread the module-load
instant `t0` through every operation; the server default of both columns is
the constant `t0`, independent of when a row is inserted.  `updated_at`
additionally declares `onupdate=datetime.datetime.now` — a callable, invoked
at the time of each UPDATE — so update operations take the current clock
value `t` and store it into `updated_at`.

Row insertion and the declared column constraints (unique department name,
foreign keys to `department`, nullable foreign-key columns) are modelled as
explicit state-passing functions over a `DBState` value; constraint failures
return `Except.error` and leave the state unchanged (the failed statement is
rolled back).  The storage engine itself is configured in
`database/settings.py`, which is not part of the sources; the identity
sequence is modelled from the spec as a monotone per-table counter whose
values are never reused.
-/

/-- Errors surfaced by the storage layer for declared constraint
violations: duplicate unique key and foreign-key mismatch. -/
inductive DBError where
  | uniqueViolation
  | fkViolation
deriving DecidableEq, Repr

/-- `Reception` table (models.py lines 52-92): click counters, each
`nullable=False` with a client-side `default=1`, plus the inherited base
columns. -/
structure Reception where
  id : Nat
  created_at : Nat
  updated_at : Nat
  apply : Int
  about_courses : Int
  about_company : Int
  vacancies : Int
  news : Int
deriving DecidableEq, Repr

/-- `Department` table (models.py lines 95-111): `department_name` is
`String, nullable=False, unique=True`, plus the inherited base columns. -/
structure Department where
  id : Nat
  created_at : Nat
  updated_at : Nat
  department_name : String
deriving DecidableEq, Repr

/-- `Customer` table (models.py lines 115-159): `chat_id` and `first_name`
are `nullable=False`; `last_name`, `phone` and `time` are nullable; the
foreign-key column `department_name` (`ForeignKey('department.department_name')`)
carries no `nullable=False`, hence is nullable — modelled as `Option`. -/
structure Customer where
  id : Nat
  created_at : Nat
  updated_at : Nat
  chat_id : Int
  first_name : String
  last_name : Option String
  phone : Option Int
  time : Option Int
  department_name : Option String
deriving DecidableEq, Repr

/-- `Course` table (models.py lines 162-182): the foreign-key column
`department_id` (`ForeignKey('department.id')`) carries no `nullable=False`,
hence is nullable; `department_info` is `Text, nullable=False`. -/
structure Course where
  id : Nat
  created_at : Nat
  updated_at : Nat
  department_id : Option Nat
  department_info : String
deriving DecidableEq, Repr

/-- `Vacancy` table (models.py lines 185-217): `vacancy_type`,
`vacancy_label`, `vacancy_info` are `nullable=False`; the foreign-key column
`department_id` carries no `nullable=False`, hence is nullable. -/
structure Vacancy where
  id : Nat
  created_at : Nat
  updated_at : Nat
  vacancy_type : Int
  department_id : Option Nat
  vacancy_label : String
  vacancy_info : String
deriving DecidableEq, Repr

/-- `News` table (models.py lines 220-246): `news_source` and `news_label`
are `nullable=False`; the foreign-key column `department_id` carries no
`nullable=False`, hence is nullable. -/
structure News where
  id : Nat
  created_at : Nat
  updated_at : Nat
  department_id : Option Nat
  news_source : String
  news_label : String
deriving DecidableEq, Repr

/-- The whole database: one list of rows per table, in insertion order, plus
one autoincrement sequence value per table (the next identity each table
will assign). -/
structure DBState where
  receptions : List Reception
  departments : List Department
  customers : List Customer
  courses : List Course
  vacancies : List Vacancy
  news : List News
  nextReceptionId : Nat
  nextDepartmentId : Nat
  nextCustomerId : Nat
  nextCourseId : Nat
  nextVacancyId : Nat
  nextNewsId : Nat
deriving DecidableEq, Repr

/-- The freshly created empty schema, as left by
`Base.metadata.drop_all` followed by `Base.metadata.create_all`
(models.py lines 259-261): every table empty, every identity sequence at 1. -/
def db0 : DBState :=
  { receptions := [], departments := [], customers := [], courses := [],
    vacancies := [], news := [], nextReceptionId := 1, nextDepartmentId := 1,
    nextCustomerId := 1, nextCourseId := 1, nextVacancyId := 1, nextNewsId := 1 }

/-- `BaseModel.id` (models.py lines 24-30): `Integer, nullable=False,
unique=True, primary_key=True, autoincrement=True`.  When no id is supplied
the next sequence value is assigned and the sequence advances by one; an
explicitly supplied id (as in the seed script) advances the sequence past it.
Sequence semantics are modelled from the spec — identities are assigned once
and never reused — since the engine choice lives in `database/settings.py`,
outside the sources. -/
def allocId (next : Nat) (explicit : Option Nat) : Nat × Nat :=
  match explicit with
  | some i => (i, max next (i + 1))
  | none => (next, next + 1)

/-- Foreign-key check for `Customer.department_name`
(`ForeignKey('department.department_name')`, models.py lines 148-151): a null
reference is allowed (the column is nullable); a non-null reference must name
an existing department. -/
def fkDeptNameOk (s : DBState) (ref : Option String) : Bool :=
  match ref with
  | none => true
  | some n => s.departments.any (fun d => d.department_name == n)

/-- Foreign-key check for the `department_id` columns of `Course`, `Vacancy`
and `News` (`ForeignKey('department.id')`): a null reference is allowed (the
columns are nullable); a non-null reference must be an existing department id. -/
def fkDeptIdOk (s : DBState) (ref : Option Nat) : Bool :=
  match ref with
  | none => true
  | some i => s.departments.any (fun d => d.id == i)

/-- INSERT INTO department.  `t0` is the module-load instant baked into the
`server_default` of `created_at` and `updated_at`.  The unique constraint on
`department_name` (models.py lines 98-103) and the primary-key constraint
reject duplicates; a rejected statement leaves the database unchanged. -/
def insertDepartment (t0 : Nat) (s : DBState) (idSupplied : Option Nat)
    (department_name : String) : Except DBError DBState :=
  let a := allocId s.nextDepartmentId idSupplied
  if s.departments.any (fun d => d.department_name == department_name) then
    .error .uniqueViolation
  else if s.departments.any (fun d => d.id == a.1) then
    .error .uniqueViolation
  else
    .ok { s with
      departments := s.departments ++
        [{ id := a.1, created_at := t0, updated_at := t0,
           department_name := department_name }],
      nextDepartmentId := a.2 }

/-- INSERT INTO reception.  The five counters have client-side `default=1`;
this models the default path, where none of them is supplied. -/
def insertReception (t0 : Nat) (s : DBState) (idSupplied : Option Nat) :
    Except DBError DBState :=
  let a := allocId s.nextReceptionId idSupplied
  if s.receptions.any (fun r => r.id == a.1) then
    .error .uniqueViolation
  else
    .ok { s with
      receptions := s.receptions ++
        [{ id := a.1, created_at := t0, updated_at := t0, apply := 1,
           about_courses := 1, about_company := 1, vacancies := 1, news := 1 }],
      nextReceptionId := a.2 }

/-- INSERT INTO customer.  A non-null `department_name` must reference an
existing department; a null one is accepted (the column is nullable). -/
def insertCustomer (t0 : Nat) (s : DBState) (idSupplied : Option Nat)
    (chat_id : Int) (first_name : String) (last_name : Option String)
    (phone : Option Int) (time : Option Int) (department_name : Option String) :
    Except DBError DBState :=
  let a := allocId s.nextCustomerId idSupplied
  if s.customers.any (fun c => c.id == a.1) then
    .error .uniqueViolation
  else if fkDeptNameOk s department_name = false then
    .error .fkViolation
  else
    .ok { s with
      customers := s.customers ++
        [{ id := a.1, created_at := t0, updated_at := t0, chat_id := chat_id,
           first_name := first_name, last_name := last_name, phone := phone,
           time := time, department_name := department_name }],
      nextCustomerId := a.2 }

/-- INSERT INTO course.  A non-null `department_id` must reference an
existing department; a null one is accepted (the column is nullable). -/
def insertCourse (t0 : Nat) (s : DBState) (idSupplied : Option Nat)
    (department_id : Option Nat) (department_info : String) :
    Except DBError DBState :=
  let a := allocId s.nextCourseId idSupplied
  if s.courses.any (fun c => c.id == a.1) then
    .error .uniqueViolation
  else if fkDeptIdOk s department_id = false then
    .error .fkViolation
  else
    .ok { s with
      courses := s.courses ++
        [{ id := a.1, created_at := t0, updated_at := t0,
           department_id := department_id, department_info := department_info }],
      nextCourseId := a.2 }

/-- INSERT INTO vacancy.  A non-null `department_id` must reference an
existing department; a null one is accepted (the column is nullable). -/
def insertVacancy (t0 : Nat) (s : DBState) (idSupplied : Option Nat)
    (vacancy_type : Int) (department_id : Option Nat) (vacancy_label : String)
    (vacancy_info : String) : Except DBError DBState :=
  let a := allocId s.nextVacancyId idSupplied
  if s.vacancies.any (fun v => v.id == a.1) then
    .error .uniqueViolation
  else if fkDeptIdOk s department_id = false then
    .error .fkViolation
  else
    .ok { s with
      vacancies := s.vacancies ++
        [{ id := a.1, created_at := t0, updated_at := t0,
           vacancy_type := vacancy_type, department_id := department_id,
           vacancy_label := vacancy_label, vacancy_info := vacancy_info }],
      nextVacancyId := a.2 }

/-- INSERT INTO news.  A non-null `department_id` must reference an existing
department; a null one is accepted (the column is nullable). -/
def insertNews (t0 : Nat) (s : DBState) (idSupplied : Option Nat)
    (department_id : Option Nat) (news_source : String) (news_label : String) :
    Except DBError DBState :=
  let a := allocId s.nextNewsId idSupplied
  if s.news.any (fun n => n.id == a.1) then
    .error .uniqueViolation
  else if fkDeptIdOk s department_id = false then
    .error .fkViolation
  else
    .ok { s with
      news := s.news ++
        [{ id := a.1, created_at := t0, updated_at := t0,
           department_id := department_id, news_source := news_source,
           news_label := news_label }],
      nextNewsId := a.2 }
/-- The `department_info` text of the first seeded Course row (the
`python_info` insert statement, models.py lines 279-303), verbatim. -/
def PYTHON_COURSE_INFO : String :=
  "*Длительность:* 4️⃣ месяца\n*Стоимость:* 150$ / за месяц 🤏\n*Программа обучения:* \n    Месяц 1: *Английский + Математика + Linux*\n    Месяц 2: *Знакомство с синтаксисом языка Python*\n    Месяц 3: *Углубленное изучения языка + Базы Данных*\n    Месяц 4: *Изучения фрэймворка Django*\n    \n*Дополнительная информация:*\n    Во время изучения языка программирования(ЯП) Python вы также получаете:\n    1. Изучение необходимых библиотек относящихся к ЯП Python 😱😱😱\n    2. Изучение нескольких Баз Данных 🧐\n    3. Возможность научиться создавать Telegram боты 🤖\n    4. Изучить вёрстку на HTML+CSS 👩‍🎤🧑‍🎤\n    5. Возможность работать на оплачиваемых проектах 🤑\n    6. Участие в локальных Хакатонах 🏆\n    7. Коворкинг и новые знакомства 🧍‍♀️🧍🐼🦉👽\n    8. Многое многое другое... 🤤😍🤩\n\n"

/-- The `department_info` text of the second Course insert statement (the
statement the seed script builds but never executes, models.py lines 304-328),
verbatim. -/
def SYS_ADMIN_COURSE_INFO : String :=
  "*Длительность:* 4️⃣ месяца\n*Стоимость:* 140$ / за месяц 🤏\n*Программа обучения:* \n    Месяц 1: *Английский + Математика + Linux*\n    Месяц 2: *Знакомство с синтаксисом языка Python*\n    Месяц 3: *Углубленное изучения языка + Базы Данных*\n    Месяц 4: *Изучения фрэймворка Django*\n    \n*Дополнительная информация:*\n    Во время изучения языка программирования(ЯП) Python вы также получаете:\n    1. Изучение необходимых библиотек относящихся к ЯП Python 😱😱😱\n    2. Изучение нескольких Баз Данных 🧐\n    3. Возможность научиться создавать Telegram боты 🤖\n    4. Изучить вёрстку на HTML+CSS 👩‍🎤🧑‍🎤\n    5. Возможность работать на оплачиваемых проектах 🤑\n    6. Участие в локальных Хакатонах 🏆\n    7. Коворкинг и новые знакомства 🧍‍♀️🧍🐼🦉👽\n    8. Многое многое другое... 🤤😍🤩\n\n"

/-- Stage one of `recreate_database` (models.py lines 253-278): drop all
tables, recreate them from the declared schema, then, inside a single
`session.begin()` transaction, `session.add_all` the four Department rows
with explicit identities 1-4; leaving the `session.begin()` block commits
them.  The prior database contents are destroyed, so the incoming state is
ignored. -/
def recreate_stage1 (t0 : Nat) (_s : DBState) : Except DBError DBState := do
  let s1 ← insertDepartment t0 db0 (some 1) "Python"
  let s2 ← insertDepartment t0 s1 (some 2) "System Administrator"
  let s3 ← insertDepartment t0 s2 (some 3) "Javascript"
  insertDepartment t0 s3 (some 4) "Java"

/-- The values of the second Course insert statement the seed script builds
(models.py lines 304-328).  Its `department_id` is `sys_admin.id`, read from
the Department object (identity 2) when `.values` is evaluated — before the
name `sys_admin` is rebound to the statement object.  The statement is
constructed but never passed to `session.execute`, so these values never
reach the database. -/
def sysAdminCourseValues : Option Nat × String :=
  (some 2, SYS_ADMIN_COURSE_INFO)

/-- Stage two of `recreate_database` (models.py lines 279-330): after the
department transaction has committed, the script executes only the
`python_info` insert statement (`await session.execute(python_info)`)
followed by `session.commit()`.  `python.id` is the explicit identity 1.
The second statement, `sysAdminCourseValues`, is never executed. -/
def recreate_stage2 (t0 : Nat) (s : DBState) : Except DBError DBState :=
  insertCourse t0 s none (some 1) PYTHON_COURSE_INFO

/-- `recreate_database` (models.py lines 253-330): the destructive
bootstrap/reseed entry point — drop and recreate the schema, seed the four
departments (stage one), then run the single executed Course insert
(stage two). -/
def recreate_database (t0 : Nat) (s : DBState) : Except DBError DBState :=
  (recreate_stage1 t0 s).bind (recreate_stage2 t0)

/-- Marker for a `department_name` SET clause: `none` means the UPDATE does
not touch the column; `some r` assigns the (nullable) value `r`, which must
satisfy the foreign key when non-null. -/
def fkSetDeptNameOk (s : DBState) (dn : Option (Option String)) : Bool :=
  match dn with
  | none => true
  | some r => fkDeptNameOk s r

/-- Marker for a `department_id` SET clause, as in `fkSetDeptNameOk`. -/
def fkSetDeptIdOk (s : DBState) (di : Option (Option Nat)) : Bool :=
  match di with
  | none => true
  | some r => fkDeptIdOk s r

/-- The unique constraint on `department_name` (models.py lines 98-103)
admits a rename only when no other row carries the new name; `none` means
the UPDATE does not touch the column. -/
def deptRenameOk (s : DBState) (i : Nat) (nm : Option String) : Bool :=
  match nm with
  | none => true
  | some n => !(s.departments.any (fun d => d.id != i && d.department_name == n))

/-- UPDATE reception WHERE id = i, with an arbitrary subset of the five
mutable counter columns in the SET list (`none` leaves a column alone).
`BaseModel.updated_at` declares `onupdate=datetime.datetime.now`
(models.py lines 40-46), so the row also receives the current clock value
`t` in `updated_at`, whichever columns are set. -/
def updateReception (t : Nat) (s : DBState) (i : Nat)
    (ap ac comp vac nw : Option Int) : DBState :=
  { s with
      receptions := s.receptions.map (fun r => if r.id == i then { r with apply := ap.getD r.apply, about_courses := ac.getD r.about_courses, about_company := comp.getD r.about_company, vacancies := vac.getD r.vacancies, news := nw.getD r.news, updated_at := t } else r) }

/-- UPDATE department WHERE id = i, optionally renaming `department_name`
(its only mutable column).  The unique constraint rejects a name already
used by a different row; on success `onupdate` stores the clock value `t`
into `updated_at`. -/
def updateDepartment (t : Nat) (s : DBState) (i : Nat) (nm : Option String) :
    Except DBError DBState :=
  if deptRenameOk s i nm then
    .ok { s with
            departments := s.departments.map (fun d => if d.id == i then { d with department_name := nm.getD d.department_name, updated_at := t } else d) }
  else .error .uniqueViolation

/-- UPDATE customer WHERE id = i, with an arbitrary subset of the six
mutable columns in the SET list; assigning `department_name` a non-null
value re-checks the foreign key.  `onupdate` stores the clock value `t`
into `updated_at`. -/
def updateCustomer (t : Nat) (s : DBState) (i : Nat)
    (chat : Option Int) (fn : Option String) (ln : Option (Option String))
    (ph : Option (Option Int)) (tm : Option (Option Int))
    (dn : Option (Option String)) : Except DBError DBState :=
  if fkSetDeptNameOk s dn then
    .ok { s with
            customers := s.customers.map (fun c => if c.id == i then { c with chat_id := chat.getD c.chat_id, first_name := fn.getD c.first_name, last_name := ln.getD c.last_name, phone := ph.getD c.phone, time := tm.getD c.time, department_name := dn.getD c.department_name, updated_at := t } else c) }
  else .error .fkViolation

/-- UPDATE course WHERE id = i (both mutable columns settable); assigning
`department_id` a non-null value re-checks the foreign key. -/
def updateCourse (t : Nat) (s : DBState) (i : Nat)
    (di : Option (Option Nat)) (info : Option String) : Except DBError DBState :=
  if fkSetDeptIdOk s di then
    .ok { s with
            courses := s.courses.map (fun c => if c.id == i then { c with department_id := di.getD c.department_id, department_info := info.getD c.department_info, updated_at := t } else c) }
  else .error .fkViolation

/-- UPDATE vacancy WHERE id = i (all four mutable columns settable);
assigning `department_id` a non-null value re-checks the foreign key. -/
def updateVacancy (t : Nat) (s : DBState) (i : Nat) (vt : Option Int)
    (di : Option (Option Nat)) (lab inf2 : Option String) : Except DBError DBState :=
  if fkSetDeptIdOk s di then
    .ok { s with
            vacancies := s.vacancies.map (fun v => if v.id == i then { v with vacancy_type := vt.getD v.vacancy_type, department_id := di.getD v.department_id, vacancy_label := lab.getD v.vacancy_label, vacancy_info := inf2.getD v.vacancy_info, updated_at := t } else v) }
  else .error .fkViolation

/-- UPDATE news WHERE id = i (all three mutable columns settable);
assigning `department_id` a non-null value re-checks the foreign key. -/
def updateNews (t : Nat) (s : DBState) (i : Nat)
    (di : Option (Option Nat)) (src lab : Option String) : Except DBError DBState :=
  if fkSetDeptIdOk s di then
    .ok { s with
            news := s.news.map (fun n => if n.id == i then { n with department_id := di.getD n.department_id, news_source := src.getD n.news_source, news_label := lab.getD n.news_label, updated_at := t } else n) }
  else .error .fkViolation

/-- Well-formedness of one table's identity column: the assigned identities
are pairwise distinct and all lie below the next sequence value, so no
future automatic assignment can ever repeat one. -/
def idsOK (ids : List Nat) (next : Nat) : Prop :=
  ids.Nodup ∧ ∀ a ∈ ids, a < next

set_option maxRecDepth 100000

/-- C2: After the bootstrap/reseed operation completes, querying the
Department table returns exactly four rows whose (id, department_name) pairs
are exactly (1, "Python"), (2, "System Administrator"), (3, "Javascript"),
(4, "Java") — for any module-load instant and any prior database state. -/
theorem recreate_seeds_departments (t0 : Nat) (s : DBState) :
    (recreate_database t0 s).map
        (fun st => st.departments.map (fun d => (d.id, d.department_name)))
      = .ok [(1, "Python"), (2, "System Administrator"), (3, "Javascript"), (4, "Java")] := rfl

/-- C1: After the bootstrap/reseed operation, the Course table holds exactly
ONE row — not the two the specification describes.  The single row does carry
non-empty `department_info` text and the valid `department_id` 1, but the
second Course insert statement the script builds is never executed
(`session.execute` is called only on `python_info`, models.py line 329). -/
theorem recreate_inserts_single_course :
    (recreate_database 0 db0).map (fun s => s.courses.length) = .ok 1
    ∧ (recreate_database 0 db0).map
        (fun s => s.courses.map (fun c => (c.department_id, c.department_info.isEmpty)))
      = .ok [(some 1, false)]
    ∧ (1 : Nat) ≠ 2 := ⟨rfl, rfl, by decide⟩

/-- C3: `created_at` does NOT record the insertion instant.  Its server
default is the constant string `str(datetime.datetime.now())` captured once
at module load (models.py line 36), so two rows inserted at different later
instants both carry the module-load timestamp (here 7): the insert operation
never consults a clock at all. -/
theorem created_at_fixed_at_module_load :
    ((insertDepartment 7 db0 none "Python").bind
      (fun s => insertDepartment 7 s none "Java")).map
        (fun s => s.departments.map (fun d => d.created_at)) = .ok [7, 7] := rfl

/-- C8: Running the destructive bootstrap/reseed twice in succession, from
any starting state, yields exactly the final state of running it once: the
routine drops everything first and all inserted values (identities, names,
course text, and the module-constant timestamps) are independent of the
prior state. -/
theorem recreate_database_idempotent (t0 : Nat) (s : DBState) :
    (recreate_database t0 s).bind (recreate_database t0) = recreate_database t0 s := rfl

/-- C9: The bootstrap/reseed is not atomic across its two insert stages: it
is definitionally the sequential composition of a first, session-scoped
stage that commits the four Department rows, and a second stage performing
the Course insertion after that commit.  Stage one alone already leaves a
committed state holding the four departments and no courses, so a failure of
the Course stage leaves the departments in place. -/
theorem recreate_two_stage (t0 : Nat) (s : DBState) :
    recreate_database t0 s = (recreate_stage1 t0 s).bind (recreate_stage2 t0)
    ∧ ∃ s1, recreate_stage1 t0 s = .ok s1
        ∧ s1.departments.map (fun d => (d.id, d.department_name)) =
            [(1, "Python"), (2, "System Administrator"), (3, "Javascript"), (4, "Java")]
        ∧ s1.courses = [] := by
  exact ⟨rfl, _, rfl, rfl, rfl⟩

/-- C5: In any database state containing a Department named `name`,
inserting another Department with the same `department_name` — with or
without an explicit id — is rejected with a uniqueness-constraint error; the
rejected statement produces no new state, so the table is left unchanged. -/
theorem insert_duplicate_department_name_fails (t0 : Nat) (s : DBState)
    (idSupplied : Option Nat) (name : String)
    (h : name ∈ s.departments.map (fun d => d.department_name)) :
    insertDepartment t0 s idSupplied name = .error .uniqueViolation := by
  have hany : s.departments.any (fun d => d.department_name == name) = true := by
    rcases List.mem_map.mp h with ⟨d, hd, hdn⟩
    exact List.any_eq_true.mpr ⟨d, hd, by simp [hdn]⟩
  simp [insertDepartment, hany]

/-- Witness for C5: re-inserting "Python" into the seeded department table
fails with the uniqueness error. -/
theorem insert_duplicate_name_fails_witness :
    insertDepartment 0 ((recreate_stage1 0 db0).toOption.getD db0) none "Python"
      = .error .uniqueViolation := by
  exact insert_duplicate_department_name_fails 0 _ none "Python" (by decide)

/-- C6: Inserting a Customer whose `department_name` names no existing
department, or a Course/Vacancy/News whose `department_id` is no existing
department id, fails with a foreign-key error (in any state whose identity
sequences are not already corrupted, i.e. the fresh automatic id does not
collide with an existing primary key). -/
theorem insert_dangling_department_reference_fails (t0 : Nat) (s : DBState)
    (i : Nat) (n : String) (chat : Int) (fn : String) (info : String)
    (vt : Int) (vlab vinfo nsrc nlab : String)
    (hid : s.departments.any (fun d => d.id == i) = false)
    (hname : s.departments.any (fun d => d.department_name == n) = false)
    (hcu : s.customers.any (fun c => c.id == s.nextCustomerId) = false)
    (hco : s.courses.any (fun c => c.id == s.nextCourseId) = false)
    (hva : s.vacancies.any (fun v => v.id == s.nextVacancyId) = false)
    (hne : s.news.any (fun x => x.id == s.nextNewsId) = false) :
    insertCustomer t0 s none chat fn none none none (some n) = .error .fkViolation
    ∧ insertCourse t0 s none (some i) info = .error .fkViolation
    ∧ insertVacancy t0 s none vt (some i) vlab vinfo = .error .fkViolation
    ∧ insertNews t0 s none (some i) nsrc nlab = .error .fkViolation := by
  refine ⟨?_, ?_, ?_, ?_⟩ <;>
    simp [insertCustomer, insertCourse, insertVacancy, insertNews, allocId,
      fkDeptNameOk, fkDeptIdOk, hid, hname, hcu, hco, hva, hne]

/-- Witness for C6: on the empty schema no department exists, so all four
dependent inserts with a non-null department reference fail. -/
theorem insert_dangling_reference_fails_witness :
    insertCustomer 0 db0 none 5 "A" none none none (some "Python") = .error .fkViolation
    ∧ insertCourse 0 db0 none (some 1) "info" = .error .fkViolation
    ∧ insertVacancy 0 db0 none 1 (some 1) "lab" "info" = .error .fkViolation
    ∧ insertNews 0 db0 none (some 1) "src" "lab" = .error .fkViolation :=
  insert_dangling_department_reference_fails 0 db0 1 "Python" 5 "A" "info" 1
    "lab" "info" "src" "lab" rfl rfl rfl rfl rfl rfl

/-- The identity column of each table, in row order. -/
def recIds (s : DBState) : List Nat := s.receptions.map (fun r => r.id)

/-- The identity column of the department table. -/
def deptIds (s : DBState) : List Nat := s.departments.map (fun d => d.id)

/-- The identity column of the customer table. -/
def custIds (s : DBState) : List Nat := s.customers.map (fun c => c.id)

/-- The identity column of the course table. -/
def courseIds (s : DBState) : List Nat := s.courses.map (fun c => c.id)

/-- The identity column of the vacancy table. -/
def vacIds (s : DBState) : List Nat := s.vacancies.map (fun v => v.id)

/-- The identity column of the news table. -/
def newsIds (s : DBState) : List Nat := s.news.map (fun n => n.id)

/-- No row's identity equals the next sequence value when all identities lie
strictly below it. -/
theorem any_id_eq_false {α : Type} (l : List α) (g : α → Nat) (next : Nat)
    (h : ∀ a ∈ l.map g, a < next) :
    l.any (fun r => g r == next) = false := by
  simp only [List.any_eq_false, beq_iff_eq]
  intro r hr
  exact Nat.ne_of_lt (h (g r) (List.mem_map_of_mem g hr))

/-- Appending the next sequence value to a well-formed identity column keeps
it well formed, and the appended identity was previously unused. -/
theorem snoc_ids_fresh {ids : List Nat} {next : Nat} (h : idsOK ids next) :
    next ∉ ids ∧ idsOK (ids ++ [next]) (next + 1) := by
  obtain ⟨hnd, hlt⟩ := h
  have hmem : next ∉ ids := fun hm => absurd (hlt _ hm) (lt_irrefl next)
  refine ⟨hmem, ?_, ?_⟩
  · simp [List.nodup_append, hnd, hmem]
  · intro a ha
    rcases List.mem_append.mp ha with h1 | h1
    · exact Nat.lt_succ_of_lt (hlt a h1)
    · rw [List.mem_singleton.mp h1]; exact Nat.lt_succ_self _

/-- An empty identity column with the sequence at its initial value is well
formed. -/
theorem idsOK_nil_one : idsOK [] 1 := ⟨List.nodup_nil, by simp⟩

/-- C4: For every entity kind, inserting a row without supplying `id`
succeeds and assigns the table's next sequence value: an identity that no
existing row of the table carries.  Pairwise distinctness and
never-reassignment are captured by preservation of `idsOK`: all identities
stay pairwise distinct and below the advanced sequence value, so no later
automatic assignment can repeat any of them.  (The department insert also
assumes its name is fresh, so the unique-name constraint does not fire.) -/
theorem insert_without_id_assigns_fresh_identity (t0 : Nat) (s : DBState)
    (name : String) (chat : Int) (fn : String) (info : String) (vt : Int)
    (vlab vinfo nsrc nlab : String)
    (hrec : idsOK (recIds s) s.nextReceptionId)
    (hdep : idsOK (deptIds s) s.nextDepartmentId)
    (hcus : idsOK (custIds s) s.nextCustomerId)
    (hcou : idsOK (courseIds s) s.nextCourseId)
    (hvac : idsOK (vacIds s) s.nextVacancyId)
    (hnew : idsOK (newsIds s) s.nextNewsId)
    (hname : s.departments.any (fun d => d.department_name == name) = false) :
    (∃ s', insertReception t0 s none = .ok s'
      ∧ recIds s' = recIds s ++ [s.nextReceptionId]
      ∧ s.nextReceptionId ∉ recIds s
      ∧ idsOK (recIds s') s'.nextReceptionId)
    ∧ (∃ s', insertDepartment t0 s none name = .ok s'
      ∧ deptIds s' = deptIds s ++ [s.nextDepartmentId]
      ∧ s.nextDepartmentId ∉ deptIds s
      ∧ idsOK (deptIds s') s'.nextDepartmentId)
    ∧ (∃ s', insertCustomer t0 s none chat fn none none none none = .ok s'
      ∧ custIds s' = custIds s ++ [s.nextCustomerId]
      ∧ s.nextCustomerId ∉ custIds s
      ∧ idsOK (custIds s') s'.nextCustomerId)
    ∧ (∃ s', insertCourse t0 s none none info = .ok s'
      ∧ courseIds s' = courseIds s ++ [s.nextCourseId]
      ∧ s.nextCourseId ∉ courseIds s
      ∧ idsOK (courseIds s') s'.nextCourseId)
    ∧ (∃ s', insertVacancy t0 s none vt none vlab vinfo = .ok s'
      ∧ vacIds s' = vacIds s ++ [s.nextVacancyId]
      ∧ s.nextVacancyId ∉ vacIds s
      ∧ idsOK (vacIds s') s'.nextVacancyId)
    ∧ (∃ s', insertNews t0 s none none nsrc nlab = .ok s'
      ∧ newsIds s' = newsIds s ++ [s.nextNewsId]
      ∧ s.nextNewsId ∉ newsIds s
      ∧ idsOK (newsIds s') s'.nextNewsId) := by
  obtain ⟨hrecf, hrecok⟩ := snoc_ids_fresh hrec
  obtain ⟨hdepf, hdepok⟩ := snoc_ids_fresh hdep
  obtain ⟨hcusf, hcusok⟩ := snoc_ids_fresh hcus
  obtain ⟨hcouf, hcouok⟩ := snoc_ids_fresh hcou
  obtain ⟨hvacf, hvacok⟩ := snoc_ids_fresh hvac
  obtain ⟨hnewf, hnewok⟩ := snoc_ids_fresh hnew
  have arec := any_id_eq_false s.receptions (fun r => r.id) s.nextReceptionId hrec.2
  have adep := any_id_eq_false s.departments (fun d => d.id) s.nextDepartmentId hdep.2
  have acus := any_id_eq_false s.customers (fun c => c.id) s.nextCustomerId hcus.2
  have acou := any_id_eq_false s.courses (fun c => c.id) s.nextCourseId hcou.2
  have avac := any_id_eq_false s.vacancies (fun v => v.id) s.nextVacancyId hvac.2
  have anew := any_id_eq_false s.news (fun n => n.id) s.nextNewsId hnew.2
  refine ⟨⟨{ s with
        receptions := s.receptions ++ [⟨s.nextReceptionId, t0, t0, 1, 1, 1, 1, 1⟩],
        nextReceptionId := s.nextReceptionId + 1 }, ?_, ?_, hrecf, ?_⟩,
    ⟨{ s with
        departments := s.departments ++ [⟨s.nextDepartmentId, t0, t0, name⟩],
        nextDepartmentId := s.nextDepartmentId + 1 }, ?_, ?_, hdepf, ?_⟩,
    ⟨{ s with
        customers := s.customers ++ [⟨s.nextCustomerId, t0, t0, chat, fn, none, none, none, none⟩],
        nextCustomerId := s.nextCustomerId + 1 }, ?_, ?_, hcusf, ?_⟩,
    ⟨{ s with
        courses := s.courses ++ [⟨s.nextCourseId, t0, t0, none, info⟩],
        nextCourseId := s.nextCourseId + 1 }, ?_, ?_, hcouf, ?_⟩,
    ⟨{ s with
        vacancies := s.vacancies ++ [⟨s.nextVacancyId, t0, t0, vt, none, vlab, vinfo⟩],
        nextVacancyId := s.nextVacancyId + 1 }, ?_, ?_, hvacf, ?_⟩,
    ⟨{ s with
        news := s.news ++ [⟨s.nextNewsId, t0, t0, none, nsrc, nlab⟩],
        nextNewsId := s.nextNewsId + 1 }, ?_, ?_, hnewf, ?_⟩⟩
  · simp [insertReception, allocId, arec]
  · simp [recIds, List.map_append]
  · simpa [recIds, List.map_append] using hrecok
  · simp [insertDepartment, allocId, adep, hname]
  · simp [deptIds, List.map_append]
  · simpa [deptIds, List.map_append] using hdepok
  · simp [insertCustomer, allocId, acus, fkDeptNameOk]
  · simp [custIds, List.map_append]
  · simpa [custIds, List.map_append] using hcusok
  · simp [insertCourse, allocId, acou, fkDeptIdOk]
  · simp [courseIds, List.map_append]
  · simpa [courseIds, List.map_append] using hcouok
  · simp [insertVacancy, allocId, avac, fkDeptIdOk]
  · simp [vacIds, List.map_append]
  · simpa [vacIds, List.map_append] using hvacok
  · simp [insertNews, allocId, anew, fkDeptIdOk]
  · simp [newsIds, List.map_append]
  · simpa [newsIds, List.map_append] using hnewok

/-- Witness for C4 on the freshly created empty schema. -/
theorem insert_fresh_identity_witness :
    (∃ s', insertReception 0 db0 none = .ok s'
      ∧ recIds s' = recIds db0 ++ [db0.nextReceptionId]
      ∧ db0.nextReceptionId ∉ recIds db0
      ∧ idsOK (recIds s') s'.nextReceptionId)
    ∧ (∃ s', insertDepartment 0 db0 none "Python" = .ok s'
      ∧ deptIds s' = deptIds db0 ++ [db0.nextDepartmentId]
      ∧ db0.nextDepartmentId ∉ deptIds db0
      ∧ idsOK (deptIds s') s'.nextDepartmentId)
    ∧ (∃ s', insertCustomer 0 db0 none 5 "Ann" none none none none = .ok s'
      ∧ custIds s' = custIds db0 ++ [db0.nextCustomerId]
      ∧ db0.nextCustomerId ∉ custIds db0
      ∧ idsOK (custIds s') s'.nextCustomerId)
    ∧ (∃ s', insertCourse 0 db0 none none "info" = .ok s'
      ∧ courseIds s' = courseIds db0 ++ [db0.nextCourseId]
      ∧ db0.nextCourseId ∉ courseIds db0
      ∧ idsOK (courseIds s') s'.nextCourseId)
    ∧ (∃ s', insertVacancy 0 db0 none 1 none "lab" "details" = .ok s'
      ∧ vacIds s' = vacIds db0 ++ [db0.nextVacancyId]
      ∧ db0.nextVacancyId ∉ vacIds db0
      ∧ idsOK (vacIds s') s'.nextVacancyId)
    ∧ (∃ s', insertNews 0 db0 none none "src" "headline" = .ok s'
      ∧ newsIds s' = newsIds db0 ++ [db0.nextNewsId]
      ∧ db0.nextNewsId ∉ newsIds db0
      ∧ idsOK (newsIds s') s'.nextNewsId) :=
  insert_without_id_assigns_fresh_identity 0 db0 "Python" 5 "Ann" "info" 1
    "lab" "details" "src" "headline" idsOK_nil_one idsOK_nil_one idsOK_nil_one
    idsOK_nil_one idsOK_nil_one idsOK_nil_one rfl

/-- C10: The four department-reference columns carry no not-null constraint
(the source omits `nullable=False` on them), so inserting a Customer,
Course, Vacancy, or News row with a null department reference succeeds — the
foreign-key check simply does not fire — even though the other spec-listed
required fields must be (and here are) supplied.  The hypotheses only rule
out states whose identity sequences are already corrupted. -/
theorem null_department_reference_allowed (t0 : Nat) (s : DBState)
    (chat : Int) (fn : String) (info : String) (vt : Int)
    (vlab vinfo nsrc nlab : String)
    (hcu : s.customers.any (fun c => c.id == s.nextCustomerId) = false)
    (hco : s.courses.any (fun c => c.id == s.nextCourseId) = false)
    (hva : s.vacancies.any (fun v => v.id == s.nextVacancyId) = false)
    (hne : s.news.any (fun x => x.id == s.nextNewsId) = false) :
    (∃ s', insertCustomer t0 s none chat fn none none none none = .ok s')
    ∧ (∃ s', insertCourse t0 s none none info = .ok s')
    ∧ (∃ s', insertVacancy t0 s none vt none vlab vinfo = .ok s')
    ∧ (∃ s', insertNews t0 s none none nsrc nlab = .ok s') := by
  refine ⟨⟨{ s with
        customers := s.customers ++ [⟨s.nextCustomerId, t0, t0, chat, fn, none, none, none, none⟩],
        nextCustomerId := s.nextCustomerId + 1 }, ?_⟩,
    ⟨{ s with
        courses := s.courses ++ [⟨s.nextCourseId, t0, t0, none, info⟩],
        nextCourseId := s.nextCourseId + 1 }, ?_⟩,
    ⟨{ s with
        vacancies := s.vacancies ++ [⟨s.nextVacancyId, t0, t0, vt, none, vlab, vinfo⟩],
        nextVacancyId := s.nextVacancyId + 1 }, ?_⟩,
    ⟨{ s with
        news := s.news ++ [⟨s.nextNewsId, t0, t0, none, nsrc, nlab⟩],
        nextNewsId := s.nextNewsId + 1 }, ?_⟩⟩
  · simp [insertCustomer, allocId, hcu, fkDeptNameOk]
  · simp [insertCourse, allocId, hco, fkDeptIdOk]
  · simp [insertVacancy, allocId, hva, fkDeptIdOk]
  · simp [insertNews, allocId, hne, fkDeptIdOk]

/-- Witness for C10 on the freshly created empty schema: all four
null-reference inserts succeed even though no department exists at all. -/
theorem null_department_reference_allowed_witness :
    (∃ s', insertCustomer 0 db0 none 5 "Ann" none none none none = .ok s')
    ∧ (∃ s', insertCourse 0 db0 none none "info" = .ok s')
    ∧ (∃ s', insertVacancy 0 db0 none 1 none "lab" "details" = .ok s')
    ∧ (∃ s', insertNews 0 db0 none none "src" "headline" = .ok s') :=
  null_department_reference_allowed 0 db0 5 "Ann" "info" 1 "lab" "details"
    "src" "headline" rfl rfl rfl rfl


/-- Updating a reception row rewrites exactly the targeted row, leaving its
position and identity in place. -/
theorem touch_reception_find (t i : Nat) (ap ac comp vac nw : Option Int)
    (l : List Reception) (r : Reception)
    (hf : l.find? (fun x => x.id == i) = some r) :
    (l.map (fun x => if x.id == i then
        { x with
            apply := ap.getD x.apply,
            about_courses := ac.getD x.about_courses,
            about_company := comp.getD x.about_company,
            vacancies := vac.getD x.vacancies,
            news := nw.getD x.news,
            updated_at := t }
      else x)).find? (fun x => x.id == i)
      = some { r with
                 apply := ap.getD r.apply,
                 about_courses := ac.getD r.about_courses,
                 about_company := comp.getD r.about_company,
                 vacancies := vac.getD r.vacancies,
                 news := nw.getD r.news,
                 updated_at := t } := by
  rw [List.find?_map]
  have hcomp : ((fun x : Reception => x.id == i) ∘
      (fun x => if x.id == i then
        { x with
            apply := ap.getD x.apply,
            about_courses := ac.getD x.about_courses,
            about_company := comp.getD x.about_company,
            vacancies := vac.getD x.vacancies,
            news := nw.getD x.news,
            updated_at := t }
      else x))
      = (fun x : Reception => x.id == i) := by
    funext x
    by_cases hx : (x.id == i) = true
    · simp [Function.comp, hx]
    · simp [Function.comp, hx]
  rw [hcomp, hf]
  have hri : r.id = i := by simpa using List.find?_some hf
  simp [hri]

/-- Renaming a department row rewrites exactly the targeted row, leaving its
position and identity in place. -/
theorem touch_department_find (t i : Nat) (nm : Option String)
    (l : List Department) (r : Department)
    (hf : l.find? (fun x => x.id == i) = some r) :
    (l.map (fun x => if x.id == i then
        { x with department_name := nm.getD x.department_name, updated_at := t }
      else x)).find? (fun x => x.id == i)
      = some { r with department_name := nm.getD r.department_name, updated_at := t } := by
  rw [List.find?_map]
  have hcomp : ((fun x : Department => x.id == i) ∘
      (fun x => if x.id == i then
        { x with department_name := nm.getD x.department_name, updated_at := t }
      else x))
      = (fun x : Department => x.id == i) := by
    funext x
    by_cases hx : (x.id == i) = true
    · simp [Function.comp, hx]
    · simp [Function.comp, hx]
  rw [hcomp, hf]
  have hri : r.id = i := by simpa using List.find?_some hf
  simp [hri]

/-- Updating a customer row rewrites exactly the targeted row, leaving its
position and identity in place. -/
theorem touch_customer_find (t i : Nat) (chat : Option Int) (fn : Option String)
    (ln : Option (Option String)) (ph : Option (Option Int))
    (tm : Option (Option Int)) (dn : Option (Option String))
    (l : List Customer) (r : Customer)
    (hf : l.find? (fun x => x.id == i) = some r) :
    (l.map (fun x => if x.id == i then
        { x with
            chat_id := chat.getD x.chat_id,
            first_name := fn.getD x.first_name,
            last_name := ln.getD x.last_name,
            phone := ph.getD x.phone,
            time := tm.getD x.time,
            department_name := dn.getD x.department_name,
            updated_at := t }
      else x)).find? (fun x => x.id == i)
      = some { r with
                 chat_id := chat.getD r.chat_id,
                 first_name := fn.getD r.first_name,
                 last_name := ln.getD r.last_name,
                 phone := ph.getD r.phone,
                 time := tm.getD r.time,
                 department_name := dn.getD r.department_name,
                 updated_at := t } := by
  rw [List.find?_map]
  have hcomp : ((fun x : Customer => x.id == i) ∘
      (fun x => if x.id == i then
        { x with
            chat_id := chat.getD x.chat_id,
            first_name := fn.getD x.first_name,
            last_name := ln.getD x.last_name,
            phone := ph.getD x.phone,
            time := tm.getD x.time,
            department_name := dn.getD x.department_name,
            updated_at := t }
      else x))
      = (fun x : Customer => x.id == i) := by
    funext x
    by_cases hx : (x.id == i) = true
    · simp [Function.comp, hx]
    · simp [Function.comp, hx]
  rw [hcomp, hf]
  have hri : r.id = i := by simpa using List.find?_some hf
  simp [hri]

/-- Updating a course row rewrites exactly the targeted row, leaving its
position and identity in place. -/
theorem touch_course_find (t i : Nat) (di : Option (Option Nat))
    (info : Option String) (l : List Course) (r : Course)
    (hf : l.find? (fun x => x.id == i) = some r) :
    (l.map (fun x => if x.id == i then
        { x with
            department_id := di.getD x.department_id,
            department_info := info.getD x.department_info,
            updated_at := t }
      else x)).find? (fun x => x.id == i)
      = some { r with
                 department_id := di.getD r.department_id,
                 department_info := info.getD r.department_info,
                 updated_at := t } := by
  rw [List.find?_map]
  have hcomp : ((fun x : Course => x.id == i) ∘
      (fun x => if x.id == i then
        { x with
            department_id := di.getD x.department_id,
            department_info := info.getD x.department_info,
            updated_at := t }
      else x))
      = (fun x : Course => x.id == i) := by
    funext x
    by_cases hx : (x.id == i) = true
    · simp [Function.comp, hx]
    · simp [Function.comp, hx]
  rw [hcomp, hf]
  have hri : r.id = i := by simpa using List.find?_some hf
  simp [hri]

/-- Updating a vacancy row rewrites exactly the targeted row, leaving its
position and identity in place. -/
theorem touch_vacancy_find (t i : Nat) (vt : Option Int)
    (di : Option (Option Nat)) (lab inf2 : Option String)
    (l : List Vacancy) (r : Vacancy)
    (hf : l.find? (fun x => x.id == i) = some r) :
    (l.map (fun x => if x.id == i then
        { x with
            vacancy_type := vt.getD x.vacancy_type,
            department_id := di.getD x.department_id,
            vacancy_label := lab.getD x.vacancy_label,
            vacancy_info := inf2.getD x.vacancy_info,
            updated_at := t }
      else x)).find? (fun x => x.id == i)
      = some { r with
                 vacancy_type := vt.getD r.vacancy_type,
                 department_id := di.getD r.department_id,
                 vacancy_label := lab.getD r.vacancy_label,
                 vacancy_info := inf2.getD r.vacancy_info,
                 updated_at := t } := by
  rw [List.find?_map]
  have hcomp : ((fun x : Vacancy => x.id == i) ∘
      (fun x => if x.id == i then
        { x with
            vacancy_type := vt.getD x.vacancy_type,
            department_id := di.getD x.department_id,
            vacancy_label := lab.getD x.vacancy_label,
            vacancy_info := inf2.getD x.vacancy_info,
            updated_at := t }
      else x))
      = (fun x : Vacancy => x.id == i) := by
    funext x
    by_cases hx : (x.id == i) = true
    · simp [Function.comp, hx]
    · simp [Function.comp, hx]
  rw [hcomp, hf]
  have hri : r.id = i := by simpa using List.find?_some hf
  simp [hri]

/-- Updating a news row rewrites exactly the targeted row, leaving its
position and identity in place. -/
theorem touch_news_find (t i : Nat) (di : Option (Option Nat))
    (src lab : Option String) (l : List News) (r : News)
    (hf : l.find? (fun x => x.id == i) = some r) :
    (l.map (fun x => if x.id == i then
        { x with
            department_id := di.getD x.department_id,
            news_source := src.getD x.news_source,
            news_label := lab.getD x.news_label,
            updated_at := t }
      else x)).find? (fun x => x.id == i)
      = some { r with
                 department_id := di.getD r.department_id,
                 news_source := src.getD r.news_source,
                 news_label := lab.getD r.news_label,
                 updated_at := t } := by
  rw [List.find?_map]
  have hcomp : ((fun x : News => x.id == i) ∘
      (fun x => if x.id == i then
        { x with
            department_id := di.getD x.department_id,
            news_source := src.getD x.news_source,
            news_label := lab.getD x.news_label,
            updated_at := t }
      else x))
      = (fun x : News => x.id == i) := by
    funext x
    by_cases hx : (x.id == i) = true
    · simp [Function.comp, hx]
    · simp [Function.comp, hx]
  rw [hcomp, hf]
  have hri : r.id = i := by simpa using List.find?_some hf
  simp [hri]

/-- C7: For every entity kind and every existing row of that kind — each
kind stated independently, so the statement applies to a row of one kind
whatever the other tables contain — an UPDATE assigning any subset of the
kind's mutable columns (hence any mutable field) stores the update-time
clock value into `updated_at`, through the shared
`onupdate=datetime.datetime.now` declared on `BaseModel.updated_at`
(models.py lines 40-46).  Whenever the clock value exceeds the row's stored
`created_at` and previous `updated_at` (a real clock read after those were
written always does), the new `updated_at` is strictly greater than both,
and `created_at` is untouched.  The constraint-side hypotheses only require
that the SET values themselves pass the declared unique/foreign-key
checks. -/
theorem update_refreshes_updated_at (t : Nat) (s : DBState) (i : Nat) :
    (∀ (r : Reception) (ap ac comp vac nw : Option Int),
      s.receptions.find? (fun x => x.id == i) = some r →
      r.created_at < t → r.updated_at < t →
      ∃ r', (updateReception t s i ap ac comp vac nw).receptions.find?
          (fun x => x.id == i) = some r'
        ∧ r.created_at < r'.updated_at ∧ r.updated_at < r'.updated_at
        ∧ r'.created_at = r.created_at)
    ∧ (∀ (r : Department) (nm : Option String),
      s.departments.find? (fun x => x.id == i) = some r →
      r.created_at < t → r.updated_at < t → deptRenameOk s i nm = true →
      ∃ s' r', updateDepartment t s i nm = .ok s'
        ∧ s'.departments.find? (fun x => x.id == i) = some r'
        ∧ r.created_at < r'.updated_at ∧ r.updated_at < r'.updated_at
        ∧ r'.created_at = r.created_at)
    ∧ (∀ (r : Customer) (chat : Option Int) (fn : Option String)
        (ln : Option (Option String)) (ph : Option (Option Int))
        (tm : Option (Option Int)) (dn : Option (Option String)),
      s.customers.find? (fun x => x.id == i) = some r →
      r.created_at < t → r.updated_at < t → fkSetDeptNameOk s dn = true →
      ∃ s' r', updateCustomer t s i chat fn ln ph tm dn = .ok s'
        ∧ s'.customers.find? (fun x => x.id == i) = some r'
        ∧ r.created_at < r'.updated_at ∧ r.updated_at < r'.updated_at
        ∧ r'.created_at = r.created_at)
    ∧ (∀ (r : Course) (di : Option (Option Nat)) (info : Option String),
      s.courses.find? (fun x => x.id == i) = some r →
      r.created_at < t → r.updated_at < t → fkSetDeptIdOk s di = true →
      ∃ s' r', updateCourse t s i di info = .ok s'
        ∧ s'.courses.find? (fun x => x.id == i) = some r'
        ∧ r.created_at < r'.updated_at ∧ r.updated_at < r'.updated_at
        ∧ r'.created_at = r.created_at)
    ∧ (∀ (r : Vacancy) (vt : Option Int) (di : Option (Option Nat))
        (lab inf2 : Option String),
      s.vacancies.find? (fun x => x.id == i) = some r →
      r.created_at < t → r.updated_at < t → fkSetDeptIdOk s di = true →
      ∃ s' r', updateVacancy t s i vt di lab inf2 = .ok s'
        ∧ s'.vacancies.find? (fun x => x.id == i) = some r'
        ∧ r.created_at < r'.updated_at ∧ r.updated_at < r'.updated_at
        ∧ r'.created_at = r.created_at)
    ∧ (∀ (r : News) (di : Option (Option Nat)) (src lab : Option String),
      s.news.find? (fun x => x.id == i) = some r →
      r.created_at < t → r.updated_at < t → fkSetDeptIdOk s di = true →
      ∃ s' r', updateNews t s i di src lab = .ok s'
        ∧ s'.news.find? (fun x => x.id == i) = some r'
        ∧ r.created_at < r'.updated_at ∧ r.updated_at < r'.updated_at
        ∧ r'.created_at = r.created_at) := by
  refine ⟨?_, ?_, ?_, ?_, ?_, ?_⟩
  · intro r ap ac comp vac nw hf h1 h2
    exact ⟨_, touch_reception_find t i ap ac comp vac nw s.receptions r hf, h1, h2, rfl⟩
  · intro r nm hf h1 h2 hok
    refine ⟨{ s with
                departments := s.departments.map (fun d => if d.id == i then { d with department_name := nm.getD d.department_name, updated_at := t } else d) },
      { r with department_name := nm.getD r.department_name, updated_at := t },
      ?_, touch_department_find t i nm s.departments r hf, h1, h2, rfl⟩
    simp [updateDepartment, hok]
  · intro r chat fn ln ph tm dn hf h1 h2 hok
    refine ⟨{ s with
                customers := s.customers.map (fun c => if c.id == i then { c with chat_id := chat.getD c.chat_id, first_name := fn.getD c.first_name, last_name := ln.getD c.last_name, phone := ph.getD c.phone, time := tm.getD c.time, department_name := dn.getD c.department_name, updated_at := t } else c) },
      { r with
          chat_id := chat.getD r.chat_id,
          first_name := fn.getD r.first_name,
          last_name := ln.getD r.last_name,
          phone := ph.getD r.phone,
          time := tm.getD r.time,
          department_name := dn.getD r.department_name,
          updated_at := t },
      ?_, touch_customer_find t i chat fn ln ph tm dn s.customers r hf, h1, h2, rfl⟩
    simp [updateCustomer, hok]
  · intro r di info hf h1 h2 hok
    refine ⟨{ s with
                courses := s.courses.map (fun c => if c.id == i then { c with department_id := di.getD c.department_id, department_info := info.getD c.department_info, updated_at := t } else c) },
      { r with
          department_id := di.getD r.department_id,
          department_info := info.getD r.department_info,
          updated_at := t },
      ?_, touch_course_find t i di info s.courses r hf, h1, h2, rfl⟩
    simp [updateCourse, hok]
  · intro r vt di lab inf2 hf h1 h2 hok
    refine ⟨{ s with
                vacancies := s.vacancies.map (fun v => if v.id == i then { v with vacancy_type := vt.getD v.vacancy_type, department_id := di.getD v.department_id, vacancy_label := lab.getD v.vacancy_label, vacancy_info := inf2.getD v.vacancy_info, updated_at := t } else v) },
      { r with
          vacancy_type := vt.getD r.vacancy_type,
          department_id := di.getD r.department_id,
          vacancy_label := lab.getD r.vacancy_label,
          vacancy_info := inf2.getD r.vacancy_info,
          updated_at := t },
      ?_, touch_vacancy_find t i vt di lab inf2 s.vacancies r hf, h1, h2, rfl⟩
    simp [updateVacancy, hok]
  · intro r di src lab hf h1 h2 hok
    refine ⟨{ s with
                news := s.news.map (fun n => if n.id == i then { n with department_id := di.getD n.department_id, news_source := src.getD n.news_source, news_label := lab.getD n.news_label, updated_at := t } else n) },
      { r with
          department_id := di.getD r.department_id,
          news_source := src.getD r.news_source,
          news_label := lab.getD r.news_label,
          updated_at := t },
      ?_, touch_news_find t i di src lab s.news r hf, h1, h2, rfl⟩
    simp [updateNews, hok]

/-- A small populated database used to instantiate hypotheses of the
update theorem: one row with identity 1 in every table, created and last
updated at instant 0. -/
def wDB : DBState :=
  { receptions := [⟨1, 0, 0, 1, 1, 1, 1, 1⟩],
    departments := [⟨1, 0, 0, "Python"⟩],
    customers := [⟨1, 0, 0, 5, "Ann", none, none, none, none⟩],
    courses := [⟨1, 0, 0, none, "info"⟩],
    vacancies := [⟨1, 0, 0, 1, none, "lab", "details"⟩],
    news := [⟨1, 0, 0, none, "src", "headline"⟩],
    nextReceptionId := 2, nextDepartmentId := 2, nextCustomerId := 2,
    nextCourseId := 2, nextVacancyId := 2, nextNewsId := 2 }

/-- Witness for C7: each kind of row of `wDB` updated on its own at
instant 5, setting various mutable columns. -/
theorem update_refreshes_updated_at_witness :
    (∃ r', (updateReception 5 wDB 1 (some 2) none none none none).receptions.find?
        (fun x => x.id == 1) = some r'
      ∧ (0 : Nat) < r'.updated_at ∧ (0 : Nat) < r'.updated_at ∧ r'.created_at = 0)
    ∧ (∃ s' r', updateDepartment 5 wDB 1 (some "Java") = .ok s'
      ∧ s'.departments.find? (fun x => x.id == 1) = some r'
      ∧ (0 : Nat) < r'.updated_at ∧ (0 : Nat) < r'.updated_at ∧ r'.created_at = 0)
    ∧ (∃ s' r', updateCustomer 5 wDB 1 none none none (some (some 7)) none
          (some (some "Python")) = .ok s'
      ∧ s'.customers.find? (fun x => x.id == 1) = some r'
      ∧ (0 : Nat) < r'.updated_at ∧ (0 : Nat) < r'.updated_at ∧ r'.created_at = 0)
    ∧ (∃ s' r', updateCourse 5 wDB 1 (some none) (some "new info") = .ok s'
      ∧ s'.courses.find? (fun x => x.id == 1) = some r'
      ∧ (0 : Nat) < r'.updated_at ∧ (0 : Nat) < r'.updated_at ∧ r'.created_at = 0)
    ∧ (∃ s' r', updateVacancy 5 wDB 1 (some 2) none (some "v2") none = .ok s'
      ∧ s'.vacancies.find? (fun x => x.id == 1) = some r'
      ∧ (0 : Nat) < r'.updated_at ∧ (0 : Nat) < r'.updated_at ∧ r'.created_at = 0)
    ∧ (∃ s' r', updateNews 5 wDB 1 none (some "s2") (some "n2") = .ok s'
      ∧ s'.news.find? (fun x => x.id == 1) = some r'
      ∧ (0 : Nat) < r'.updated_at ∧ (0 : Nat) < r'.updated_at ∧ r'.created_at = 0) :=
  ⟨(update_refreshes_updated_at 5 wDB 1).1 ⟨1, 0, 0, 1, 1, 1, 1, 1⟩
      (some 2) none none none none rfl (by decide) (by decide),
   (update_refreshes_updated_at 5 wDB 1).2.1 ⟨1, 0, 0, "Python"⟩
      (some "Java") rfl (by decide) (by decide) rfl,
   (update_refreshes_updated_at 5 wDB 1).2.2.1
      ⟨1, 0, 0, 5, "Ann", none, none, none, none⟩ none none none
      (some (some 7)) none (some (some "Python")) rfl (by decide) (by decide) rfl,
   (update_refreshes_updated_at 5 wDB 1).2.2.2.1 ⟨1, 0, 0, none, "info"⟩
      (some none) (some "new info") rfl (by decide) (by decide) rfl,
   (update_refreshes_updated_at 5 wDB 1).2.2.2.2.1
      ⟨1, 0, 0, 1, none, "lab", "details"⟩ (some 2) none (some "v2") none
      rfl (by decide) (by decide) rfl,
   (update_refreshes_updated_at 5 wDB 1).2.2.2.2.2
      ⟨1, 0, 0, none, "src", "headline"⟩ none (some "s2") (some "n2")
      rfl (by decide) (by decide) rfl⟩
